import Mathlib

/-!
Verification development for `pdf_to_anki.py`: a shallow embedding of the
conversion pipeline (text extraction, word-count budget check, prompt
construction via Python `str.format`, JSON parsing of the completion reply,
truthiness-based card filtering, deck assembly, package write) together with
theorems about its behaviour.

External libraries (`pdfplumber`, `openai`, `genanki`, the Python standard
library's `json`, `random`, `str` methods) are modelled faithfully on the
fragments of their behaviour the program exercises; each such model carries a
doc comment saying what it models.
-/

namespace PdfToAnki

/-- A JSON value as produced by Python's `json.loads`: `None`, booleans,
numbers (restricted to integers; the program's claims never involve floats),
strings, lists and dicts (dicts keep insertion order, as Python dicts do). -/
inductive JValue where
  | null : JValue
  | bool (b : Bool) : JValue
  | num (n : Int) : JValue
  | str (s : String) : JValue
  | arr (elems : List JValue) : JValue
  | obj (fields : List (String × JValue)) : JValue

/-- Python truthiness (`if not front or not back:` in the source, line 96) of a
JSON-decoded value: `None`, `False`, `0`, `""`, `[]` and `{}` are falsy. -/
def JValue.truthy : JValue → Bool
  | .null => false
  | .bool b => b
  | .num n => n != 0
  | .str s => !s.isEmpty
  | .arr elems => !elems.isEmpty
  | .obj fields => !fields.isEmpty

/-- Is the value a Python dict? -/
def JValue.isObj : JValue → Bool
  | .obj _ => true
  | _ => false

/-- Python exceptions the embedded pipeline can raise.  The source's
`handle_errors` decorator treats them all alike, but the constructors keep the
kinds apart so theorems can talk about them. -/
inductive PyError where
  | fileNotFound (msg : String) : PyError
  | valueError (msg : String) : PyError
  | typeError (msg : String) : PyError
  | attributeError (msg : String) : PyError
deriving DecidableEq

/-- Models Python's `d.get(key)` (source lines 94 and 95): on a dict it returns
the stored value or `None` when the key is absent; on any non-dict value,
attribute lookup of `get` raises `AttributeError`. -/
def pyGet (v : JValue) (key : String) : Except PyError JValue :=
  match v with
  | .obj fields => .ok ((fields.lookup key).getD .null)
  | _ => .error (.attributeError "object has no attribute get")

/-- Models Python's `for x in v` over a JSON-decoded value (source line 93):
lists yield their elements, strings their one-character substrings, dicts their
keys; `None`, booleans and numbers are not iterable (`TypeError`). -/
def pyIter (v : JValue) : Except PyError (List JValue) :=
  match v with
  | .arr elems => .ok elems
  | .str s => .ok (s.toList.map (fun c => .str (String.mk [c])))
  | .obj fields => .ok (fields.map (fun kv => .str kv.1))
  | _ => .error (.typeError "object is not iterable")

/-- Models `random.randrange(lo, hi)` (source lines 10 and 92): for any state
of the random generator (abstracted as a seed) it returns some integer in
`[lo, hi)` and never fails. -/
def pyRandrange (lo hi seed : Nat) : Nat :=
  lo + seed % (hi - lo)

/-- Models Python's `str.isspace`-style whitespace for `str.split()`:
the ASCII whitespace characters. -/
def pyIsSpace (c : Char) : Bool :=
  c = ' ' || c = '\t' || c = '\n' || c = '\r' || c = '\x0b' || c = '\x0c'

/-- The maximal non-whitespace runs of a character list: Python's
`text.split()` with no separator argument. -/
def pySplitWs : List Char → List Char → List (List Char)
  | [], [] => []
  | [], acc => [acc.reverse]
  | c :: rest, acc =>
    if pyIsSpace c then
      match acc with
      | [] => pySplitWs rest []
      | acc => acc.reverse :: pySplitWs rest []
    else pySplitWs rest (c :: acc)

/-- `len(text.split())` (source line 73): the whitespace-delimited word count. -/
def wordCount (text : String) : Nat :=
  (pySplitWs text.toList []).length

/-- The `genanki.Model` value: identifier, name and ordered field names.  The
display template is carried opaquely by the external serializer and does not
affect any claim, so it is not part of the record. -/
structure AnkiModel where
  model_id : Nat
  name : String
  fieldNames : List String

/-- `ANKI_MODEL` (source lines 9-20), parameterised by the random seed consumed
by `random.randrange(1 << 30, 1 << 31)` at module scope. -/
def ankiModel (seed : Nat) : AnkiModel :=
  { model_id := pyRandrange (2 ^ 30) (2 ^ 31) seed
    name := "Pdf to Anki"
    fieldNames := ["Question", "Answer"] }

/-- A `genanki.Note`: its model and its ordered field values.  The source
passes the raw JSON values `front` and `back` as fields (line 98), so a field
is a `JValue`. -/
structure Note where
  model : AnkiModel
  fields : List JValue

/-- A `genanki.Deck`: identifier, name, and the notes added in order by
`deck.add_note` (line 99). -/
structure Deck where
  deck_id : Nat
  name : String
  notes : List Note

/-- The card loop of `main` (source lines 93-99): for each candidate take
`card_data.get("front")` and `card_data.get("back")`; skip the candidate when
either is falsy, otherwise append a note with fields `[front, back]`. -/
def processCards (model : AnkiModel) : List JValue → List Note → Except PyError (List Note)
  | [], notes => .ok notes
  | c :: rest, notes =>
    match pyGet c "front" with
    | .error e => .error e
    | .ok front =>
      match pyGet c "back" with
      | .error e => .error e
      | .ok back =>
        if front.truthy && back.truthy then
          processCards model rest (notes ++ [{ model := model, fields := [front, back] }])
        else
          processCards model rest notes

/-- The same loop (source lines 93-97) viewed as the candidate filter it
implements: it returns the sub-list of candidates whose `front` and `back` are
both truthy, in order, raising the same errors on non-dict candidates. -/
def cardValidator : List JValue → Except PyError (List JValue)
  | [] => .ok []
  | c :: rest =>
    match pyGet c "front" with
    | .error e => .error e
    | .ok front =>
      match pyGet c "back" with
      | .error e => .error e
      | .ok back =>
        match cardValidator rest with
        | .error e => .error e
        | .ok kept =>
          if front.truthy && back.truthy then
            .ok (c :: kept)
          else
            .ok kept

/-- The extraction loop of `main` (source lines 66-71): start from `""` and,
page by page, append `page.extract_text()` whenever it is truthy.  A page is
modelled as `Option String` since `extract_text` returns text or `None`. -/
def extractText (pages : List (Option String)) : String :=
  pages.foldl
    (fun text p =>
      match p with
      | some t => if t.isEmpty then text else text ++ t
      | none => text)
    ""

/-- Models Python's `template.format(arg)` with a single positional argument
(source line 80), on the replacement fields the program can meet: the
auto-numbered empty field `\x7b\x7d` substitutes the argument, the escapes
`\x7b\x7b` and `\x7d\x7d` produce literal braces, a second empty field with no
argument left raises `IndexError`, and any other use of a brace (indexed or
named fields are not modelled) raises; all failures are collapsed to `none`. -/
def formatAux : List Char → List (List Char) → Option (List Char)
  | [], _ => some []
  | c :: rest, args =>
    if c = '{' then
      match rest with
      | '{' :: rest2 => (formatAux rest2 args).map (fun r => '{' :: r)
      | '}' :: rest2 =>
        match args with
        | [] => none
        | a :: args2 => (formatAux rest2 args2).map (fun r => a ++ r)
      | _ => none
    else if c = '}' then
      match rest with
      | '}' :: rest2 => (formatAux rest2 args).map (fun r => '}' :: r)
      | _ => none
    else
      (formatAux rest args).map (fun r => c :: r)

/-- `args.chatgpt_prompt.format(text)` (source line 80). -/
def pyFormat (template arg : String) : Option String :=
  (formatAux template.toList [arg.toList]).map (fun r => String.mk r)

/-- A character list free of brace characters (a template with no replacement
field and no escape). -/
def braceFree (l : List Char) : Bool :=
  l.all (fun c => !(c = '{') && !(c = '}'))

/-- JSON's insignificant whitespace, skipped between tokens. -/
def skipWs : List Char → List Char
  | c :: rest =>
    if c = ' ' || c = '\t' || c = '\n' || c = '\r' then skipWs rest else c :: rest
  | [] => []

/-- The body of a JSON string after its opening quote: the decoded characters
and the input remaining after the closing quote.  The standard escapes the
claims can meet are handled; `\uXXXX` is not modelled. -/
def parseStringBody : List Char → Except String (List Char × List Char)
  | [] => .error "Unterminated string"
  | c :: rest =>
    if c = '"' then .ok ([], rest)
    else if c = '\\' then
      match rest with
      | [] => .error "Unterminated string"
      | e :: rest2 =>
        let decoded : Option Char :=
          if e = '"' then some '"'
          else if e = '\\' then some '\\'
          else if e = '/' then some '/'
          else if e = 'n' then some '\n'
          else if e = 't' then some '\t'
          else if e = 'r' then some '\r'
          else none
        match decoded with
        | some ch => (parseStringBody rest2).map (fun p => (ch :: p.1, p.2))
        | none => .error "Invalid escape"
    else
      (parseStringBody rest).map (fun p => (c :: p.1, p.2))

/-- The longest run of decimal digits at the head of the input, as a number,
with the remaining input. -/
def parseDigits : List Char → Nat → Nat × List Char
  | c :: rest, acc =>
    if c.isDigit then parseDigits rest (acc * 10 + (c.toNat - 48)) else (acc, c :: rest)
  | [], acc => (acc, [])

/-- Does the input start with a decimal digit? -/
def headIsDigit : List Char → Bool
  | c :: _ => c.isDigit
  | [] => false

mutual

/-- One JSON value at the head of the input (leading whitespace allowed),
with the remaining input.  The fuel bounds the nesting depth; `jsonParse`
supplies more fuel than any input can consume. -/
def parseVal : Nat → List Char → Except String (JValue × List Char)
  | 0, _ => .error "Nesting depth exceeded"
  | fuel + 1, cs =>
    match skipWs cs with
    | [] => .error "Expecting value"
    | c :: rest =>
      if c = 'n' then
        match rest with
        | 'u' :: 'l' :: 'l' :: rest2 => .ok (.null, rest2)
        | _ => .error "Expecting value"
      else if c = 't' then
        match rest with
        | 'r' :: 'u' :: 'e' :: rest2 => .ok (.bool true, rest2)
        | _ => .error "Expecting value"
      else if c = 'f' then
        match rest with
        | 'a' :: 'l' :: 's' :: 'e' :: rest2 => .ok (.bool false, rest2)
        | _ => .error "Expecting value"
      else if c = '"' then
        (parseStringBody rest).map (fun p => (.str (String.mk p.1), p.2))
      else if c = '-' then
        if headIsDigit rest then
          let p := parseDigits rest 0
          .ok (.num (-(p.1 : Int)), p.2)
        else .error "Expecting value"
      else if c.isDigit then
        let p := parseDigits (c :: rest) 0
        .ok (.num (p.1 : Int), p.2)
      else if c = '[' then
        match skipWs rest with
        | ']' :: rest2 => .ok (.arr [], rest2)
        | rest2 => (parseElems fuel rest2).map (fun p => (.arr p.1, p.2))
      else if c = '{' then
        match skipWs rest with
        | '}' :: rest2 => .ok (.obj [], rest2)
        | rest2 => (parseMembers fuel rest2).map (fun p => (.obj p.1, p.2))
      else .error "Expecting value"

/-- The elements of a non-empty JSON array, up to and including the closing
bracket. -/
def parseElems : Nat → List Char → Except String (List JValue × List Char)
  | 0, _ => .error "Nesting depth exceeded"
  | fuel + 1, cs => do
    let (v, rest) ← parseVal fuel cs
    match skipWs rest with
    | ',' :: rest2 => (parseElems fuel rest2).map (fun p => (v :: p.1, p.2))
    | ']' :: rest2 => .ok ([v], rest2)
    | _ => .error "Expecting comma delimiter"

/-- The members of a non-empty JSON object, up to and including the closing
brace. -/
def parseMembers : Nat → List Char → Except String (List (String × JValue) × List Char)
  | 0, _ => .error "Nesting depth exceeded"
  | fuel + 1, cs =>
    match skipWs cs with
    | '"' :: rest => do
      let (key, rest2) ← parseStringBody rest
      match skipWs rest2 with
      | ':' :: rest3 => do
        let (v, rest4) ← parseVal fuel rest3
        match skipWs rest4 with
        | ',' :: rest5 =>
          (parseMembers fuel rest5).map (fun p => ((String.mk key, v) :: p.1, p.2))
        | '}' :: rest5 => .ok ([(String.mk key, v)], rest5)
        | _ => .error "Expecting comma delimiter"
      | _ => .error "Expecting colon delimiter"
    | _ => .error "Expecting property name"

end

/-- Models `json.loads(generated_text)` (source line 88) on the JSON fragment
the program exercises (no floats, no `\uXXXX` escapes): parse one value, then
require only whitespace to remain.  Errors are the parse diagnostics. -/
def jsonParse (s : String) : Except String JValue := do
  let (v, rest) ← parseVal (s.length + 2) s.toList
  match skipWs rest with
  | [] => .ok v
  | _ => .error "Extra data"

/-- The inputs of one run of `main` (source lines 55-104): the command-line
configuration, the environment (does the input file exist, does the output
directory exist), the document's per-page text, the random seeds consumed by
the two `random.randrange` calls, and the completion service abstracted as a
function from the sent prompt to the reply text. -/
structure RunConfig where
  pdfInput : String
  inputExists : Bool
  outDirExists : Bool
  pages : List (Option String)
  maxWords : Nat
  template : String
  deckName : String
  modelSeed : Nat
  deckSeed : Nat
  gateway : String → String

/-- The observable side effects of one run: whether the output directory
exists once the run ends (source lines 61-62 create it when absent), the
prompt sent to the completion service if the service was invoked at all
(source lines 78-82), and whether the package file was written (source
line 103). -/
structure Effects where
  dirExistsAfter : Bool
  promptSent : Option String
  fileWritten : Bool

/-- Was the completion gateway invoked during the run? -/
def Effects.gatewayCalled (e : Effects) : Bool :=
  e.promptSent.isSome

/-- The deck identifier `random.randrange(1 << 30, 1 << 31)` drawn on source
line 92, parameterised by the seed consumed there. -/
def deckIdOf (seed : Nat) : Nat :=
  pyRandrange (2 ^ 30) (2 ^ 31) seed

/-- The tail of `main` after the completion request returns (source lines
84-104): parse the reply as JSON (line 88, re-raising a `JSONDecodeError` as
the `ValueError` of line 90), iterate the parsed value (line 93), run the card
loop (lines 93-99), and write the package (lines 101-103).  At this point the
output directory exists and the gateway has been sent `prompt`. -/
def afterReply (cfg : RunConfig) (prompt generatedText : String) :
    Except PyError Deck × Effects :=
  match jsonParse generatedText with
  | .error e =>
    (.error (.valueError ("Failed to parse JSON from generated text: " ++ e)),
     { dirExistsAfter := true, promptSent := some prompt, fileWritten := false })
  | .ok parsed =>
    match pyIter parsed with
    | .error e =>
      (.error e,
       { dirExistsAfter := true, promptSent := some prompt, fileWritten := false })
    | .ok cardsData =>
      match processCards (ankiModel cfg.modelSeed) cardsData [] with
      | .error e =>
        (.error e,
         { dirExistsAfter := true, promptSent := some prompt, fileWritten := false })
      | .ok notes =>
        (.ok { deck_id := deckIdOf cfg.deckSeed, name := cfg.deckName, notes := notes },
         { dirExistsAfter := true, promptSent := some prompt, fileWritten := true })

/-- `main` (source lines 55-104) as a function from the run inputs to the
raised exception or the written deck, paired with the run's side effects, in
the source's statement order: input-file check (lines 58-59),
output-directory creation (lines 61-62), page-by-page extraction (lines
66-71), word-count budget check (lines 73-75), prompt construction (line 80),
completion request (lines 78-82), then the reply handling of `afterReply`. -/
def runPipeline (cfg : RunConfig) : Except PyError Deck × Effects :=
  if !cfg.inputExists then
    (.error (.fileNotFound ("The PDF file '" ++ cfg.pdfInput ++ "' does not exist.")),
     { dirExistsAfter := cfg.outDirExists, promptSent := none, fileWritten := false })
  else
    let text := extractText cfg.pages
    let numWords := wordCount text
    if numWords > cfg.maxWords then
      (.error (.valueError ("PDF exceeds " ++ toString cfg.maxWords ++ " words.")),
       { dirExistsAfter := true, promptSent := none, fileWritten := false })
    else
      match pyFormat cfg.template text with
      | none =>
        (.error (.valueError "format failed"),
         { dirExistsAfter := true, promptSent := none, fileWritten := false })
      | some prompt =>
        afterReply cfg prompt (cfg.gateway prompt)

/-! ## Specification-side definitions

These definitions follow the spec's words, to be compared with the
source-derived definitions above. -/

/-- Plain concatenation of a list of strings, in order, with no separator. -/
def joinStrs : List String → String
  | [] => ""
  | s :: rest => s ++ joinStrs rest

/-- The spec's description of extraction (§4.1): "a single string equal to the
ordered concatenation of all pages' extracted text, with pages that produce no
extractable text contributing nothing (not even a separator)". -/
def extractTextSpec (pages : List (Option String)) : String :=
  joinStrs ((pages.filterMap id).filter (fun t => !t.isEmpty))

/-- The spec's validity notion for a candidate: its "front" value is a
non-empty string. -/
def fieldNonEmptyStr (c : JValue) (key : String) : Bool :=
  match c with
  | .obj fields =>
    match fields.lookup key with
    | some (.str s) => !s.isEmpty
    | _ => false
  | _ => false

/-- The spec's validity notion for a candidate (§4.6): both a non-empty
question and a non-empty answer. -/
def specValid (c : JValue) : Bool :=
  fieldNonEmptyStr c "front" && fieldNonEmptyStr c "back"

/-- Total version of `pyGet` for stating results: the value a dict stores
under a key, `null` when absent (and `null` on non-dicts, where `pyGet`
errors instead). -/
def objGetD (c : JValue) (key : String) : JValue :=
  match c with
  | .obj fields => (fields.lookup key).getD .null
  | _ => .null

/-- A candidate of the shape the spec's data model describes (§3,
"CardCandidate: a pair of optional question/answer strings"): a dict whose
"front" and "back" entries, when present, are strings or `null`. -/
def optStrField (v : Option JValue) : Bool :=
  match v with
  | none => true
  | some .null => true
  | some (.str _) => true
  | _ => false

/-- Well-formedness of a parsed candidate per the spec's data model. -/
def candidateWF (c : JValue) : Bool :=
  match c with
  | .obj fields => optStrField (fields.lookup "front") && optStrField (fields.lookup "back")
  | _ => false

/-- The note a valid candidate is turned into (source line 98): the fixed
model with fields `[front, back]`. -/
def noteOf (model : AnkiModel) (c : JValue) : Note :=
  { model := model, fields := [objGetD c "front", objGetD c "back"] }

/-- The candidate filter as the code implements it: both retrieved values are
truthy. -/
def validB (c : JValue) : Bool :=
  (objGetD c "front").truthy && (objGetD c "back").truthy

/-! ## Helper lemmas -/

theorem foldl_extract (pages : List (Option String)) (acc : String) :
    pages.foldl
      (fun text p =>
        match p with
        | some t => if t.isEmpty then text else text ++ t
        | none => text)
      acc = acc ++ extractTextSpec pages := by
  induction pages generalizing acc with
  | nil => simp [extractTextSpec, joinStrs]
  | cons p rest ih =>
    cases p with
    | none => simp [List.foldl, ih, extractTextSpec]
    | some t =>
      by_cases ht : t.isEmpty
      · simp [List.foldl, ht, ih, extractTextSpec]
      · simp [List.foldl, ht, ih, extractTextSpec, joinStrs, String.append_assoc]

theorem pyGet_obj (fields : List (String × JValue)) (key : String) :
    pyGet (.obj fields) key = .ok (objGetD (.obj fields) key) := rfl

theorem truthy_objGetD_of_wf (c : JValue) (key : String)
    (hobj : c.isObj = true)
    (hopt : optStrField (match c with | .obj fields => fields.lookup key | _ => none) = true) :
    (objGetD c key).truthy = fieldNonEmptyStr c key := by
  cases c with
  | obj fields =>
    simp only [objGetD, fieldNonEmptyStr]
    cases h : fields.lookup key with
    | none => rfl
    | some v =>
      cases v <;> simp_all [optStrField, JValue.truthy]
  | null => simp [JValue.isObj] at hobj
  | bool b => simp [JValue.isObj] at hobj
  | num n => simp [JValue.isObj] at hobj
  | str s => simp [JValue.isObj] at hobj
  | arr elems => simp [JValue.isObj] at hobj

theorem candidateWF_isObj (c : JValue) (h : candidateWF c = true) : c.isObj = true := by
  cases c <;> simp_all [candidateWF, JValue.isObj]

theorem validB_eq_specValid_of_wf (c : JValue) (h : candidateWF c = true) :
    validB c = specValid c := by
  have hobj := candidateWF_isObj c h
  cases c with
  | obj fields =>
    simp only [candidateWF, Bool.and_eq_true] at h
    simp only [validB, specValid]
    rw [truthy_objGetD_of_wf _ _ hobj h.1, truthy_objGetD_of_wf _ _ hobj h.2]
  | null => simp [JValue.isObj] at hobj
  | bool b => simp [JValue.isObj] at hobj
  | num n => simp [JValue.isObj] at hobj
  | str s => simp [JValue.isObj] at hobj
  | arr elems => simp [JValue.isObj] at hobj

theorem processCards_wf (model : AnkiModel) (L : List JValue) (acc : List Note)
    (h : ∀ c ∈ L, candidateWF c = true) :
    processCards model L acc = .ok (acc ++ (L.filter specValid).map (noteOf model)) := by
  induction L generalizing acc with
  | nil => simp [processCards]
  | cons c rest ih =>
    have hc := h c (List.mem_cons_self c rest)
    have hrest : ∀ x ∈ rest, candidateWF x = true := fun x hx => h x (List.mem_cons_of_mem c hx)
    have hobj := candidateWF_isObj c hc
    cases c with
    | obj fields =>
      have hvb := validB_eq_specValid_of_wf (.obj fields) hc
      simp only [validB] at hvb
      simp only [processCards, pyGet_obj, hvb]
      by_cases hv : specValid (.obj fields) = true
      · simp only [hv, if_true, ih _ hrest, List.filter_cons, List.map_cons]
        simp [noteOf, objGetD]
      · have hvf : specValid (.obj fields) = false := Bool.eq_false_iff.mpr (by simpa using hv)
        simp only [hvf, Bool.false_eq_true, if_false, ih _ hrest, List.filter_cons]
    | null => simp [JValue.isObj] at hobj
    | bool b => simp [JValue.isObj] at hobj
    | num n => simp [JValue.isObj] at hobj
    | str s => simp [JValue.isObj] at hobj
    | arr elems => simp [JValue.isObj] at hobj

theorem cardValidator_ok (L K : List JValue) (h : cardValidator L = .ok K) :
    (∀ c ∈ L, c.isObj = true) ∧ K = L.filter validB := by
  induction L generalizing K with
  | nil =>
    simp only [cardValidator] at h
    cases h
    simp
  | cons c rest ih =>
    cases c with
    | obj fields =>
      simp only [cardValidator, pyGet_obj] at h
      split at h
      · exact Except.noConfusion h
      · next kept hrest =>
        obtain ⟨hobjs, hkept⟩ := ih kept hrest
        have hmem : ∀ x ∈ JValue.obj fields :: rest, x.isObj = true := by
          intro x hx
          rcases List.mem_cons.mp hx with hx | hx
          · rw [hx]; rfl
          · exact hobjs x hx
        split at h
        · next hcond =>
          cases h
          refine ⟨hmem, ?_⟩
          have hv : validB (.obj fields) = true := by simpa [validB] using hcond
          simp [List.filter_cons, hv, hkept]
        · next hcond =>
          cases h
          refine ⟨hmem, ?_⟩
          have hv : validB (.obj fields) = false := by
            simp only [validB]
            exact Bool.eq_false_iff.mpr hcond
          simp [List.filter_cons, hv, hkept]
    | null => simp [cardValidator, pyGet] at h
    | bool b => simp [cardValidator, pyGet] at h
    | num n => simp [cardValidator, pyGet] at h
    | str s => simp [cardValidator, pyGet] at h
    | arr elems => simp [cardValidator, pyGet] at h

theorem cardValidator_of_objs (L : List JValue) (h : ∀ c ∈ L, c.isObj = true) :
    cardValidator L = .ok (L.filter validB) := by
  induction L with
  | nil => rfl
  | cons c rest ih =>
    have hobj := h c (List.mem_cons_self c rest)
    have hrest : ∀ x ∈ rest, x.isObj = true := fun x hx => h x (List.mem_cons_of_mem c hx)
    cases c with
    | obj fields =>
      simp only [cardValidator, pyGet_obj, ih hrest, List.filter_cons]
      by_cases hv : validB (.obj fields) = true
      · have hv2 : ((objGetD (.obj fields) "front").truthy
            && (objGetD (.obj fields) "back").truthy) = true := by simpa [validB] using hv
        rw [if_pos hv2, hv, if_pos rfl]
      · have hvf : validB (.obj fields) = false := Bool.eq_false_iff.mpr (by simpa using hv)
        have hvf2 : ((objGetD (.obj fields) "front").truthy
            && (objGetD (.obj fields) "back").truthy) = false := by simpa [validB] using hvf
        rw [if_neg (by simp [hvf2]), hvf]
        simp
    | null => simp [JValue.isObj] at hobj
    | bool b => simp [JValue.isObj] at hobj
    | num n => simp [JValue.isObj] at hobj
    | str s => simp [JValue.isObj] at hobj
    | arr elems => simp [JValue.isObj] at hobj

theorem formatAux_cons_ne (c : Char) (l : List Char) (args : List (List Char))
    (h1 : ¬ c = '{') (h2 : ¬ c = '}') :
    formatAux (c :: l) args = (formatAux l args).map (fun r => c :: r) := by
  rw [formatAux.eq_def]
  simp [h1, h2]

theorem formatAux_marker_head (s a : List Char) :
    formatAux ('{' :: '}' :: s) [a] = (formatAux s []).map (fun r => a ++ r) := by
  rw [formatAux.eq_def]
  simp

theorem formatAux_braceFree (l : List Char) (args : List (List Char))
    (h : braceFree l = true) : formatAux l args = some l := by
  induction l with
  | nil => rfl
  | cons c rest ih =>
    simp only [braceFree, List.all_cons, Bool.and_eq_true, Bool.not_eq_true',
      decide_eq_false_iff_not] at h
    obtain ⟨⟨h1, h2⟩, h3⟩ := h
    have hrest : braceFree rest = true := by simpa [braceFree] using h3
    rw [formatAux_cons_ne c rest args h1 h2, ih hrest]
    rfl

theorem formatAux_marker (p s a : List Char)
    (hp : braceFree p = true) (hs : braceFree s = true) :
    formatAux (p ++ '{' :: '}' :: s) [a] = some (p ++ (a ++ s)) := by
  induction p with
  | nil =>
    rw [List.nil_append, formatAux_marker_head, formatAux_braceFree s [] hs]
    rfl
  | cons c rest ih =>
    simp only [braceFree, List.all_cons, Bool.and_eq_true, Bool.not_eq_true',
      decide_eq_false_iff_not] at hp
    obtain ⟨⟨h1, h2⟩, h3⟩ := hp
    have hrest : braceFree rest = true := by simpa [braceFree] using h3
    rw [List.cons_append, formatAux_cons_ne c _ _ h1 h2, ih hrest]
    rfl


theorem runPipeline_to_gateway (cfg : RunConfig) (h0 : cfg.inputExists = true)
    (h1 : wordCount (extractText cfg.pages) ≤ cfg.maxWords)
    (prompt : String) (hf : pyFormat cfg.template (extractText cfg.pages) = some prompt) :
    runPipeline cfg = afterReply cfg prompt (cfg.gateway prompt) := by
  simp only [runPipeline, h0, Bool.not_true, Bool.false_eq_true, if_false]
  rw [if_neg (by omega), hf]

theorem afterReply_promptSent (cfg : RunConfig) (prompt generatedText : String) :
    (afterReply cfg prompt generatedText).2.promptSent = some prompt := by
  simp only [afterReply]
  split
  · rfl
  · split
    · rfl
    · split
      · rfl
      · rfl

theorem randrange_window (seed : Nat) :
    2 ^ 30 ≤ pyRandrange (2 ^ 30) (2 ^ 31) seed ∧ pyRandrange (2 ^ 30) (2 ^ 31) seed < 2 ^ 31 := by
  simp only [pyRandrange]
  have h : seed % (2 ^ 31 - 2 ^ 30) < 2 ^ 31 - 2 ^ 30 := Nat.mod_lt _ (by norm_num)
  constructor
  · exact Nat.le_add_right _ _
  · omega


/-! ## Claim theorems -/

/-- C5: For every finite sequence of per-page text fragments, the extracted
text equals the concatenation, in page order, of exactly those fragments that
are non-empty, with no separator inserted between fragments and pages yielding
no text contributing nothing. -/
theorem extraction_is_ordered_concat (pages : List (Option String)) :
    extractText pages = extractTextSpec pages := by
  simpa [extractText, String.empty_append] using foldl_extract pages ""

/-- C7: For every run (every pair of random-generator states), the generated
deck identifier and the generated note-schema identifier each lie within
`[2^30, 2^31)`; both generators are total functions, so identifier generation
never fails. -/
theorem identifiers_in_window (modelSeed deckSeed : Nat) :
    (2 ^ 30 ≤ (ankiModel modelSeed).model_id ∧ (ankiModel modelSeed).model_id < 2 ^ 31)
    ∧ (2 ^ 30 ≤ deckIdOf deckSeed ∧ deckIdOf deckSeed < 2 ^ 31) :=
  ⟨randrange_window modelSeed, randrange_window deckSeed⟩

/-- C1: For every parsed candidate list (of the optional-string shape the
spec's data model gives candidates), the assembled notes are exactly those of
the candidates with both a non-empty question and a non-empty answer, in their
original relative order, each note's two fields being exactly the candidate's
question and answer. -/
theorem deck_notes_are_valid_candidates (model : AnkiModel) (L : List JValue)
    (h : ∀ c ∈ L, candidateWF c = true) :
    processCards model L [] = .ok ((L.filter specValid).map (noteOf model)) := by
  simpa using processCards_wf model L [] h

/-- The spec's concrete scenario for C1: the parsed form of the reply
`[ \x7b front: 2+2?, back: 4 \x7d, \x7b front: (empty), back: x \x7d,
\x7b front: Capital of France?, back: Paris \x7d ]`. -/
def specScenario : List JValue :=
  [ .obj [("front", .str "2+2?"), ("back", .str "4")],
    .obj [("front", .str ""), ("back", .str "x")],
    .obj [("front", .str "Capital of France?"), ("back", .str "Paris")] ]

/-- Witness for C1: on the spec's concrete scenario, exactly the first and
third candidates survive, in order, with fields `[question, answer]`. -/
theorem deck_notes_are_valid_candidates_witness :
    (∀ c ∈ specScenario, candidateWF c = true)
    ∧ processCards (ankiModel 0) specScenario []
      = .ok [ { model := ankiModel 0, fields := [.str "2+2?", .str "4"] },
              { model := ankiModel 0, fields := [.str "Capital of France?", .str "Paris"] } ] := by
  have h : ∀ c ∈ specScenario, candidateWF c = true := by decide
  refine ⟨h, ?_⟩
  rw [deck_notes_are_valid_candidates (ankiModel 0) specScenario h]
  rfl

/-- C8: the candidate-validation filter is idempotent: whatever list the
filter produces, filtering it again returns it unchanged. -/
theorem validator_idempotent (L K : List JValue) (h : cardValidator L = .ok K) :
    cardValidator K = .ok K := by
  obtain ⟨hobjs, hK⟩ := cardValidator_ok L K h
  have hKobjs : ∀ c ∈ K, c.isObj = true := by
    intro c hc
    exact hobjs c (List.mem_of_mem_filter (hK ▸ hc))
  rw [cardValidator_of_objs K hKobjs, hK]
  have : (L.filter validB).filter validB = L.filter validB :=
    List.filter_eq_self.mpr (fun a ha => (List.mem_filter.mp ha).2)
  rw [this]

/-- Witness for C8 at a concrete list that really drops a candidate. -/
theorem validator_idempotent_witness :
    cardValidator [JValue.obj [("front", JValue.str "q"), ("back", JValue.str "a")], JValue.obj []]
      = .ok [JValue.obj [("front", JValue.str "q"), ("back", JValue.str "a")]]
    ∧ cardValidator [JValue.obj [("front", JValue.str "q"), ("back", JValue.str "a")]]
      = .ok [JValue.obj [("front", JValue.str "q"), ("back", JValue.str "a")]] :=
  ⟨rfl, validator_idempotent
    [JValue.obj [("front", JValue.str "q"), ("back", JValue.str "a")], JValue.obj []]
    [JValue.obj [("front", JValue.str "q"), ("back", JValue.str "a")]] rfl⟩

/-- C9: the validator drops a candidate whenever its retrieved "front" or
"back" value is falsy under Python truthiness, not only when it is missing or
an empty string; in particular the values `0`, `false` and `null` are falsy
and such candidates are silently excluded. -/
theorem falsy_candidate_dropped :
    (∀ (model : AnkiModel) (c : JValue) (rest : List JValue) (acc : List Note),
      c.isObj = true →
      ((objGetD c "front").truthy = false ∨ (objGetD c "back").truthy = false) →
      processCards model (c :: rest) acc = processCards model rest acc)
    ∧ JValue.truthy (.num 0) = false
    ∧ JValue.truthy (.bool false) = false
    ∧ JValue.truthy .null = false := by
  refine ⟨?_, rfl, rfl, rfl⟩
  intro model c rest acc hobj hfalsy
  cases c with
  | obj fields =>
    simp only [processCards, pyGet_obj]
    have : ((objGetD (.obj fields) "front").truthy && (objGetD (.obj fields) "back").truthy) = false := by
      rcases hfalsy with hf | hf <;> simp [hf]
    rw [if_neg (by simp [this])]
  | null => simp [JValue.isObj] at hobj
  | bool b => simp [JValue.isObj] at hobj
  | num n => simp [JValue.isObj] at hobj
  | str s => simp [JValue.isObj] at hobj
  | arr elems => simp [JValue.isObj] at hobj

/-- Witness for C9: a candidate whose question is the number `0` and whose
answer is a non-empty string contributes no note. -/
theorem falsy_candidate_dropped_witness :
    (JValue.obj [("front", JValue.num 0), ("back", JValue.str "x")]).isObj = true
    ∧ processCards (ankiModel 0) [JValue.obj [("front", JValue.num 0), ("back", JValue.str "x")]] []
      = processCards (ankiModel 0) [] [] :=
  ⟨rfl, falsy_candidate_dropped.1 (ankiModel 0) _ [] [] rfl (Or.inl rfl)⟩


theorem afterReply_dirExistsAfter (cfg : RunConfig) (prompt generatedText : String) :
    (afterReply cfg prompt generatedText).2.dirExistsAfter = true := by
  simp only [afterReply]
  split
  · rfl
  · split
    · rfl
    · split
      · rfl
      · rfl

/-- A stub completion gateway whose reply is an empty JSON array. -/
def stubReply : String → String := fun _ => "[]"

/-- A run over a two-word document against a one-word budget. -/
def cfgTwoWords : RunConfig :=
  { pdfInput := "doc.pdf", inputExists := true, outDirExists := true,
    pages := [some "a b"], maxWords := 1, template := "\x7b\x7d",
    deckName := "Deck", modelSeed := 0, deckSeed := 0, gateway := stubReply }

/-- The same run over a three-word document. -/
def cfgThreeWords : RunConfig :=
  { pdfInput := "doc.pdf", inputExists := true, outDirExists := true,
    pages := [some "a b c"], maxWords := 1, template := "\x7b\x7d",
    deckName := "Deck", modelSeed := 0, deckSeed := 0, gateway := stubReply }

/-- Counterexample to C2 as stated: two over-budget runs with different word
counts (2 and 3, both over the limit 1) produce identical outcomes, and the
error is `ValueError ("PDF exceeds 1 words.")` — it names the limit only, so
the raised error cannot carry the computed word count. -/
theorem budget_error_carries_no_count :
    wordCount (extractText cfgTwoWords.pages) = 2
    ∧ wordCount (extractText cfgThreeWords.pages) = 3
    ∧ cfgTwoWords.maxWords = 1
    ∧ cfgThreeWords.maxWords = 1
    ∧ runPipeline cfgTwoWords = runPipeline cfgThreeWords
    ∧ (runPipeline cfgTwoWords).1 = .error (.valueError "PDF exceeds 1 words.") :=
  ⟨rfl, rfl, rfl, rfl, rfl, rfl⟩

/-- C2 (amended): for every extracted text whose whitespace-split word count
exceeds the configured maximum, the pipeline fails with the `ValueError`
`"PDF exceeds <limit> words."` — carrying the limit but not the computed
count — the completion gateway is never invoked, and no file is written. -/
theorem budget_exceeded_halts (cfg : RunConfig) (h0 : cfg.inputExists = true)
    (h : wordCount (extractText cfg.pages) > cfg.maxWords) :
    (runPipeline cfg).1
      = .error (.valueError ("PDF exceeds " ++ toString cfg.maxWords ++ " words."))
    ∧ (runPipeline cfg).2.gatewayCalled = false
    ∧ (runPipeline cfg).2.fileWritten = false := by
  simp only [runPipeline, h0, Bool.not_true, Bool.false_eq_true, if_false]
  rw [if_pos h]
  exact ⟨rfl, rfl, rfl⟩

/-- Witness for C2 (amended) on the concrete two-word run. -/
theorem budget_exceeded_halts_witness :
    cfgTwoWords.inputExists = true
    ∧ wordCount (extractText cfgTwoWords.pages) > cfgTwoWords.maxWords
    ∧ ((runPipeline cfgTwoWords).1
        = .error (.valueError ("PDF exceeds " ++ toString cfgTwoWords.maxWords ++ " words."))
      ∧ (runPipeline cfgTwoWords).2.gatewayCalled = false
      ∧ (runPipeline cfgTwoWords).2.fileWritten = false) :=
  ⟨rfl, by decide, budget_exceeded_halts cfgTwoWords rfl (by decide)⟩


theorem pyFormat_marker (p s arg : String)
    (hp : braceFree p.toList = true) (hs : braceFree s.toList = true) :
    pyFormat (p ++ "\x7b\x7d" ++ s) arg = some (p ++ arg ++ s) := by
  have htl : (p ++ "\x7b\x7d" ++ s).toList = p.toList ++ '{' :: '}' :: s.toList := by
    show ((p ++ "\x7b\x7d") ++ s).data = p.data ++ '{' :: '}' :: s.data
    rw [String.data_append, String.data_append]
    rw [show ("\x7b\x7d" : String).data = ['{', '}'] from rfl, List.append_assoc]
    rfl
  simp only [pyFormat, htl]
  rw [formatAux_marker p.toList s.toList arg.toList hp hs]
  show some (String.mk (p.toList ++ (arg.toList ++ s.toList))) = some (p ++ arg ++ s)
  congr 1
  apply String.ext
  show p.data ++ (arg.data ++ s.data) = ((p ++ arg) ++ s).data
  rw [String.data_append, String.data_append, List.append_assoc]

theorem pyFormat_noMarker (tpl arg : String) (h : braceFree tpl.toList = true) :
    pyFormat tpl arg = some tpl := by
  simp only [pyFormat, formatAux_braceFree tpl.toList [arg.toList] h]
  rfl

/-- C3: for every run whose extracted text is within budget, the pipeline
proceeds, and the prompt handed to the completion gateway is the template with
its single substitution marker replaced by the extracted text verbatim; a
template with no marker (and no brace at all) is sent as-is, the text silently
dropped. -/
theorem prompt_substitution (cfg : RunConfig)
    (h0 : cfg.inputExists = true)
    (h1 : wordCount (extractText cfg.pages) ≤ cfg.maxWords) :
    (∀ p s : String, cfg.template = p ++ "\x7b\x7d" ++ s →
      braceFree p.toList = true → braceFree s.toList = true →
      (runPipeline cfg).2.promptSent = some (p ++ extractText cfg.pages ++ s))
    ∧ (braceFree cfg.template.toList = true →
      (runPipeline cfg).2.promptSent = some cfg.template) := by
  constructor
  · intro p s htpl hp hs
    have hf : pyFormat cfg.template (extractText cfg.pages)
        = some (p ++ extractText cfg.pages ++ s) := by
      rw [htpl]
      exact pyFormat_marker p s (extractText cfg.pages) hp hs
    rw [runPipeline_to_gateway cfg h0 h1 _ hf, afterReply_promptSent]
  · intro hbf
    have hf : pyFormat cfg.template (extractText cfg.pages) = some cfg.template :=
      pyFormat_noMarker cfg.template (extractText cfg.pages) hbf
    rw [runPipeline_to_gateway cfg h0 h1 _ hf, afterReply_promptSent]

/-- A run whose template holds one substitution marker. -/
def cfgMarker : RunConfig :=
  { pdfInput := "doc.pdf", inputExists := true, outDirExists := true,
    pages := [some "abc"], maxWords := 1000, template := "Text: \x7b\x7d",
    deckName := "Deck", modelSeed := 0, deckSeed := 0, gateway := fun _ => "[]" }

/-- The same run with a marker-free template. -/
def cfgPlain : RunConfig :=
  { pdfInput := "doc.pdf", inputExists := true, outDirExists := true,
    pages := [some "abc"], maxWords := 1000, template := "no marker",
    deckName := "Deck", modelSeed := 0, deckSeed := 0, gateway := fun _ => "[]" }

/-- Witness for C3: with template `Text: ` + marker the prompt is
`Text: abc`; with template `no marker` the prompt is the template itself. -/
theorem prompt_substitution_witness :
    cfgMarker.inputExists = true
    ∧ wordCount (extractText cfgMarker.pages) ≤ cfgMarker.maxWords
    ∧ (runPipeline cfgMarker).2.promptSent = some ("Text: " ++ extractText cfgMarker.pages ++ "")
    ∧ (runPipeline cfgPlain).2.promptSent = some cfgPlain.template :=
  ⟨rfl, by decide,
    (prompt_substitution cfgMarker rfl (by decide)).1 "Text: " "" (by decide) (by decide) (by decide),
    (prompt_substitution cfgPlain rfl (by decide)).2 (by decide)⟩


/-- A run whose completion reply is the JSON object `\x7b\x7d`: valid JSON of
the wrong top-level shape (not an array of objects). -/
def cfgObjReply : RunConfig :=
  { pdfInput := "doc.pdf", inputExists := true, outDirExists := true,
    pages := [some "hi"], maxWords := 1000, template := "Text: \x7b\x7d",
    deckName := "Deck", modelSeed := 0, deckSeed := 0,
    gateway := fun _ => "\x7b\x7d" }

/-- Counterexample to C4 as stated: a reply of the wrong top-level shape —
the JSON object `\x7b\x7d`, parseable but not an array of objects — does not
make the pipeline fail at all: Python iterates the dict's (zero) keys, so the
run succeeds, assembles a zero-note deck, and writes the output file. -/
theorem wrong_shape_reply_not_parse_error :
    jsonParse "\x7b\x7d" = .ok (.obj [])
    ∧ (JValue.obj []).isObj = true
    ∧ (runPipeline cfgObjReply).1
        = .ok { deck_id := deckIdOf 0, name := "Deck", notes := [] }
    ∧ (runPipeline cfgObjReply).2.fileWritten = true :=
  ⟨rfl, rfl, rfl, rfl⟩

/-- C4 (amended): for every completion reply that is not parseable as JSON,
the pipeline fails with the `ValueError`
`"Failed to parse JSON from generated text: <diagnostic>"` carrying the
underlying parse diagnostic (not a snippet of the offending text), and no
output file is produced.  A parseable reply of the wrong top-level shape is
not detected by this stage (see the counterexample). -/
theorem unparseable_reply_parse_error (cfg : RunConfig) (e : String)
    (h0 : cfg.inputExists = true)
    (h1 : wordCount (extractText cfg.pages) ≤ cfg.maxWords)
    (prompt : String)
    (hf : pyFormat cfg.template (extractText cfg.pages) = some prompt)
    (hp : jsonParse (cfg.gateway prompt) = .error e) :
    (runPipeline cfg).1
      = .error (.valueError ("Failed to parse JSON from generated text: " ++ e))
    ∧ (runPipeline cfg).2.fileWritten = false := by
  rw [runPipeline_to_gateway cfg h0 h1 prompt hf]
  simp only [afterReply, hp]
  exact ⟨trivial, trivial⟩

/-- A run whose completion reply is not JSON at all. -/
def cfgBadReply : RunConfig :=
  { pdfInput := "doc.pdf", inputExists := true, outDirExists := true,
    pages := [some "hi"], maxWords := 1000, template := "Text: \x7b\x7d",
    deckName := "Deck", modelSeed := 0, deckSeed := 0,
    gateway := fun _ => "not json" }

/-- Witness for C4 (amended) on the concrete unparseable reply `not json`. -/
theorem unparseable_reply_parse_error_witness :
    cfgBadReply.inputExists = true
    ∧ wordCount (extractText cfgBadReply.pages) ≤ cfgBadReply.maxWords
    ∧ pyFormat cfgBadReply.template (extractText cfgBadReply.pages) = some "Text: hi"
    ∧ jsonParse (cfgBadReply.gateway "Text: hi") = .error "Expecting value"
    ∧ ((runPipeline cfgBadReply).1
        = .error (.valueError ("Failed to parse JSON from generated text: " ++ "Expecting value"))
      ∧ (runPipeline cfgBadReply).2.fileWritten = false) :=
  ⟨rfl, by decide, rfl, rfl,
    unparseable_reply_parse_error cfgBadReply "Expecting value" rfl (by decide) "Text: hi" rfl rfl⟩

/-- C6: when the parsed candidate list (of the spec's optional-string shape)
has no candidate with both a non-empty question and a non-empty answer, the
pipeline does not fail: it assembles a deck with zero notes and still writes
the package file. -/
theorem no_valid_candidates_zero_note_deck (cfg : RunConfig) (L : List JValue)
    (h0 : cfg.inputExists = true)
    (h1 : wordCount (extractText cfg.pages) ≤ cfg.maxWords)
    (prompt : String)
    (hf : pyFormat cfg.template (extractText cfg.pages) = some prompt)
    (hp : jsonParse (cfg.gateway prompt) = .ok (.arr L))
    (hwf : ∀ c ∈ L, candidateWF c = true)
    (hnone : ∀ c ∈ L, specValid c = false) :
    (runPipeline cfg).1
      = .ok { deck_id := deckIdOf cfg.deckSeed, name := cfg.deckName, notes := [] }
    ∧ (runPipeline cfg).2.fileWritten = true := by
  rw [runPipeline_to_gateway cfg h0 h1 prompt hf]
  have hfil : L.filter specValid = [] :=
    List.filter_eq_nil_iff.mpr (fun a ha => by simp [hnone a ha])
  have hproc : processCards (ankiModel cfg.modelSeed) L [] = .ok [] := by
    rw [processCards_wf _ _ _ hwf, hfil]
    rfl
  simp only [afterReply, hp, pyIter, hproc]
  exact ⟨trivial, trivial⟩

/-- A run whose reply parses to candidates none of which is valid. -/
def cfgNoValid : RunConfig :=
  { pdfInput := "doc.pdf", inputExists := true, outDirExists := true,
    pages := [some "hi"], maxWords := 1000, template := "Text: \x7b\x7d",
    deckName := "Deck", modelSeed := 0, deckSeed := 0,
    gateway := fun _ => "[\x7b\"front\":\"\",\"back\":\"x\"\x7d,\x7b\"back\":\"y\"\x7d]" }

/-- Witness for C6: a reply whose two candidates both lack a non-empty
question yields a written zero-note deck. -/
theorem no_valid_candidates_zero_note_deck_witness :
    cfgNoValid.inputExists = true
    ∧ wordCount (extractText cfgNoValid.pages) ≤ cfgNoValid.maxWords
    ∧ jsonParse (cfgNoValid.gateway "Text: hi")
        = .ok (.arr [ .obj [("front", .str ""), ("back", .str "x")],
                      .obj [("back", .str "y")] ])
    ∧ ((runPipeline cfgNoValid).1
        = .ok { deck_id := deckIdOf cfgNoValid.deckSeed, name := cfgNoValid.deckName, notes := [] }
      ∧ (runPipeline cfgNoValid).2.fileWritten = true) :=
  ⟨rfl, by decide, rfl,
    no_valid_candidates_zero_note_deck cfgNoValid
      [ .obj [("front", .str ""), ("back", .str "x")], .obj [("back", .str "y")] ]
      rfl (by decide) "Text: hi" rfl rfl (by decide) (by decide)⟩

/-- C10: the output directory exists from the start of every run that passes
the input-file existence check — it is created, when absent, before text
extraction, the budget check and the gateway call — so it exists afterwards
even when the pipeline later fails and no package file is written. -/
theorem outdir_created_early (cfg : RunConfig) (h0 : cfg.inputExists = true) :
    (runPipeline cfg).2.dirExistsAfter = true := by
  simp only [runPipeline, h0, Bool.not_true, Bool.false_eq_true, if_false]
  split
  · rfl
  · split
    · rfl
    · exact afterReply_dirExistsAfter cfg _ _

/-- A failing run (over budget) whose output directory did not exist before. -/
def cfgNoDir : RunConfig :=
  { pdfInput := "doc.pdf", inputExists := true, outDirExists := false,
    pages := [some "a b c"], maxWords := 1, template := "\x7b\x7d",
    deckName := "Deck", modelSeed := 0, deckSeed := 0, gateway := fun _ => "[]" }

/-- Witness for C10: the directory exists after a run that fails at the
budget check and writes nothing. -/
theorem outdir_created_early_witness :
    cfgNoDir.inputExists = true
    ∧ cfgNoDir.outDirExists = false
    ∧ (runPipeline cfgNoDir).2.dirExistsAfter = true
    ∧ (runPipeline cfgNoDir).2.fileWritten = false :=
  ⟨rfl, rfl, outdir_created_early cfgNoDir rfl, rfl⟩

end PdfToAnki
